import Mathlib

/-!
Verification of the EthHook C pipeline against its specification.

Shallow embedding of the relevant C functions:
* `src/common/circuit_breaker.c` — `circuit_breaker_allow` / `circuit_breaker_success`
  / `circuit_breaker_failure`
* `src/common/arena.c` — `arena_alloc`, `arena_alloc_aligned`
* `src/common/clickhouse.c` — `clickhouse_batch_flush`
* `src/delivery/retry.c` — `retry_calculate_delay`
* `src/delivery/http_client.c` — `generate_signature`, `http_client_post`
* `src/processor/filter.c` — `topics_match`, `filter_matches`
* `src/ingestor/worker.c` — `ingestor_worker_thread` reconnect loop

Machine integers (`uint64_t` / `size_t`) are modelled as `Nat` with explicit
reduction modulo `2^64` at the operations where C wraps.  `double` arithmetic in
`retry.c` is modelled exactly over `ℚ`.  External libraries (libcurl transport,
OpenSSL HMAC, the ClickHouse HTTP round trip, the wall clock) are inputs to the
embedded functions, never stubs of repository code.
-/

/-- `2^64`, the modulus of `uint64_t` / `size_t` arithmetic. -/
def U64 : Nat := 18446744073709551616

/-- `uint64_t` subtraction `a - b` (two's-complement wraparound), for `a b < U64`. -/
def u64sub (a b : Nat) : Nat := (a + U64 - b) % U64

/-! ## Circuit breaker (`src/common/circuit_breaker.c`) -/

/-- `cb_state_t` from `include/ethhook/common.h`. -/
inductive cb_state_t
  | closed
  | cbOpen
  | halfOpen
deriving DecidableEq, Repr

/-- `circuit_breaker_t` from `include/ethhook/common.h`.  The atomics are plain
fields: the claims are about the sequential state machine. -/
structure circuit_breaker_t where
  state : cb_state_t
  failure_count : Nat
  success_count : Nat
  last_failure_time : Nat
  failure_threshold : Nat
  timeout_ms : Nat
  half_open_max_calls : Nat
deriving DecidableEq, Repr

/-- `circuit_breaker_init` (circuit_breaker.c:6-14). -/
def circuit_breaker_init (failure_threshold timeout_ms : Nat) : circuit_breaker_t :=
  { state := cb_state_t.closed
    failure_count := 0
    success_count := 0
    last_failure_time := 0
    failure_threshold := failure_threshold
    timeout_ms := timeout_ms
    half_open_max_calls := 3 }

/-- `circuit_breaker_allow` (circuit_breaker.c:22-51).  `now` is the value of
`get_time_ms()`; the CAS in the open branch always succeeds sequentially.
Returns the C return value together with the updated breaker. -/
def circuit_breaker_allow (cb : circuit_breaker_t) (now : Nat) :
    Bool × circuit_breaker_t :=
  match cb.state with
  | cb_state_t.closed => (true, cb)
  | cb_state_t.cbOpen =>
      if cb.timeout_ms ≤ u64sub (now % U64) cb.last_failure_time then
        (true, { cb with state := cb_state_t.halfOpen
                         success_count := 0
                         failure_count := 0 })
      else
        (false, cb)
  | cb_state_t.halfOpen =>
      (decide ((cb.success_count + cb.failure_count) % U64 < cb.half_open_max_calls), cb)

/-- `circuit_breaker_success` (circuit_breaker.c:53-68). -/
def circuit_breaker_success (cb : circuit_breaker_t) : circuit_breaker_t :=
  match cb.state with
  | cb_state_t.halfOpen =>
      if cb.half_open_max_calls ≤ (cb.success_count + 1) % U64 then
        { cb with state := cb_state_t.closed
                  failure_count := 0
                  success_count := 0 }
      else
        { cb with success_count := (cb.success_count + 1) % U64 }
  | cb_state_t.closed => { cb with failure_count := 0 }
  | cb_state_t.cbOpen => cb

/-- `circuit_breaker_failure` (circuit_breaker.c:70-88); `now` is `get_time_ms()`.
The store of `last_failure_time` happens in every branch, as in the C. -/
def circuit_breaker_failure (cb : circuit_breaker_t) (now : Nat) : circuit_breaker_t :=
  match cb.state with
  | cb_state_t.halfOpen =>
      { cb with last_failure_time := now % U64
                state := cb_state_t.cbOpen
                failure_count := 0
                success_count := 0 }
  | cb_state_t.closed =>
      if cb.failure_threshold ≤ (cb.failure_count + 1) % U64 then
        { cb with last_failure_time := now % U64
                  failure_count := (cb.failure_count + 1) % U64
                  state := cb_state_t.cbOpen }
      else
        { cb with last_failure_time := now % U64
                  failure_count := (cb.failure_count + 1) % U64 }
  | cb_state_t.cbOpen => { cb with last_failure_time := now % U64 }

/-- `n` consecutive calls to `circuit_breaker_failure`, all at time `now`. -/
def failN (now : Nat) : Nat → circuit_breaker_t → circuit_breaker_t
  | 0, cb => cb
  | n + 1, cb => failN now n (circuit_breaker_failure cb now)

/-- `n` consecutive calls to `circuit_breaker_success`. -/
def succN : Nat → circuit_breaker_t → circuit_breaker_t
  | 0, cb => cb
  | n + 1, cb => succN n (circuit_breaker_success cb)

/-! ## Arena allocator (`src/common/arena.c`) -/

/-- `struct arena` (arena.c:33-40).  `base`, `cursor` and `endp` (the C field
`end`) are absolute addresses as naturals. -/
structure arena_t where
  base : Nat
  cursor : Nat
  endp : Nat
  capacity : Nat
  num_allocations : Nat
  peak_usage : Nat
deriving DecidableEq, Repr

/-- `ARENA_DEFAULT_ALIGN` (arena.c:21). -/
def ARENA_DEFAULT_ALIGN : Nat := 8

/-- `ALIGN_UP(n, align)` (arena.c:27): `((n) + (align) - 1) & ~((align) - 1)` in
`size_t` arithmetic.  For a power-of-two `align`, masking with `~(align - 1)`
is rounding down to a multiple of `align`, so the mask form equals
`x / align * align` applied to `(n + align - 1) % 2^64`. -/
def ALIGN_UP (n align : Nat) : Nat := ((n + (align - 1)) % U64) / align * align

/-- `IS_POWER_OF_2` (arena.c:30). -/
def IS_POWER_OF_2 (x : Nat) : Bool := x ≠ 0 && (x &&& (x - 1)) == 0

/-- `arena_alloc` (arena.c:82-108).  Returns the allocated address and the
updated arena, or `none` where C returns `NULL`. -/
def arena_alloc (arena : arena_t) (size : Nat) : Option (Nat × arena_t) :=
  if size = 0 then none
  else
    let sz := ALIGN_UP size ARENA_DEFAULT_ALIGN
    let available := arena.endp - arena.cursor
    if available < sz then none
    else
      let cursor2 := arena.cursor + sz
      let current_usage := cursor2 - arena.base
      some (arena.cursor,
        { arena with cursor := cursor2
                     num_allocations := arena.num_allocations + 1
                     peak_usage := Max.max arena.peak_usage current_usage })

/-- `arena_alloc_aligned` (arena.c:118-148). -/
def arena_alloc_aligned (arena : arena_t) (size alignment : Nat) :
    Option (Nat × arena_t) :=
  if size = 0 ∨ IS_POWER_OF_2 alignment = false then none
  else
    let aligned_addr := ALIGN_UP arena.cursor alignment
    let padding := aligned_addr - arena.cursor
    let total_size := padding + size
    let available := arena.endp - arena.cursor
    if available < total_size then none
    else
      let cursor2 := aligned_addr + size
      some (aligned_addr,
        { arena with cursor := cursor2
                     num_allocations := arena.num_allocations + 1
                     peak_usage := Max.max arena.peak_usage (cursor2 - arena.base) })

/-! ## Error codes (`include/ethhook/common.h`) -/

/-- `eth_error_t` (common.h:10-25), the constructors the claims touch. -/
inductive eth_error_t
  | ETH_OK
  | ETH_ERROR
  | ETH_ERROR_MEMORY
  | ETH_ERROR_NETWORK
  | ETH_ERROR_HTTP
  | ETH_ERROR_TIMEOUT
  | ETH_ERROR_INVALID_PARAM
deriving DecidableEq, Repr

/-! ## ClickHouse batch writer (`src/common/clickhouse.c`) -/

/-- The two client counters `clickhouse_batch_flush` touches. -/
structure clickhouse_client_t where
  batches_flushed : Nat
  rows_inserted : Nat
deriving DecidableEq, Repr

/-- `clickhouse_batch_t`: the buffered rows (`items` with logical length
`count`; clearing resets `count` only, exactly as the C does) and the owning
client's counters.  `Row` abstracts `clickhouse_event_t` / `clickhouse_delivery_t`. -/
structure clickhouse_batch_t (Row : Type) where
  client : clickhouse_client_t
  items : List Row
  count : Nat
  capacity : Nat
deriving DecidableEq, Repr

/-- `clickhouse_batch_flush` (clickhouse.c:477-527).  The HTTP round trip of
`clickhouse_query` is external; its result is the input `query_err`.  The
query-string rendering is pure and cannot affect the buffer, so it is elided
(its `malloc` failure path returns early without touching the batch). -/
def clickhouse_batch_flush {Row : Type} (batch : clickhouse_batch_t Row)
    (query_err : eth_error_t) : eth_error_t × clickhouse_batch_t Row :=
  if batch.count = 0 then (eth_error_t.ETH_OK, batch)
  else
    let client2 :=
      if query_err = eth_error_t.ETH_OK then
        { batch.client with
            batches_flushed := batch.client.batches_flushed + 1
            rows_inserted := batch.client.rows_inserted + batch.count }
      else batch.client
    (query_err, { batch with client := client2, count := 0 })

/-! ## Retry schedule (`src/delivery/retry.c`) -/

/-- `retry_policy_t` (include/ethhook/delivery.h:32-38); the `double`
multiplier is modelled exactly as a rational. -/
structure retry_policy_t where
  max_retries : Nat
  base_delay_ms : Nat
  max_delay_ms : Nat
  backoff_multiplier : ℚ
deriving DecidableEq, Repr

/-- `retry_calculate_delay` (retry.c:6-30).  The `double` computation is exact
over `ℚ`; `jitter` is the value `rand()` produces in `[-1/4, 1/4]`; the final
`(uint64_t)delay` cast truncates the (non-negative) result, i.e. floors it. -/
def retry_calculate_delay (policy : retry_policy_t) (attempt : Nat) (jitter : ℚ) : Nat :=
  if attempt = 0 then 0
  else
    let delay1 : ℚ := (policy.base_delay_ms : ℚ) *
      policy.backoff_multiplier ^ (attempt - 1)
    let delay2 : ℚ :=
      if (policy.max_delay_ms : ℚ) < delay1 then (policy.max_delay_ms : ℚ) else delay1
    let delay3 : ℚ := delay2 * (1 + jitter)
    let delay4 : ℚ :=
      if delay3 < (policy.base_delay_ms : ℚ) then (policy.base_delay_ms : ℚ) else delay3
    (Rat.floor delay4).toNat

/-! ## HTTP delivery client (`src/delivery/http_client.c`) -/

/-- One byte rendered by `sprintf(&hex[i * 2], "%02x", hash[i])`
(http_client.c:55-57): two lowercase hex digits. -/
def byteToHexChars (b : Nat) : List Char := [Nat.digitChar (b / 16), Nat.digitChar (b % 16)]

/-- The hex string built by the loop in `generate_signature` (http_client.c:49-58). -/
def bytesToHex (bs : List Nat) : String := String.mk (List.flatten (bs.map byteToHexChars))

/-- `generate_signature` (http_client.c:42-61).  The OpenSSL `HMAC` call is
external; `hash` is its 32-byte output. -/
def generate_signature (hash : List Nat) : String := bytesToHex hash

/-- The header list built by `http_client_post` (http_client.c:84-91):
`Content-Type` always, then `"X-EthHook-Signature: sha256=" ++ signature` when a
signature is supplied. -/
def http_post_headers (signature : Option String) : List String :=
  match signature with
  | none => [("Content-Type: application/json")]
  | some s =>
      [("Content-Type: application/json"), ("X-EthHook-Signature: sha256=" ++ s)]

/-- Is `c` a lowercase hex digit? -/
def isLowerHexChar (c : Char) : Bool := c ∈ ("0123456789abcdef").toList

/-- Result of `curl_easy_perform` plus `CURLINFO_RESPONSE_CODE`: the transport
either fails (timeout or other error) or yields an HTTP status. -/
inductive curl_result_t
  | ok (status : Nat)
  | curlTimeout
  | curlError
deriving DecidableEq, Repr

/-- The outcome classification of `http_client_post` (http_client.c:111-152):
the returned error code and the client's circuit breaker after the call
(`none` models `client->circuit_breaker == NULL`).  `now` is `get_time_ms()`
inside `circuit_breaker_failure`. -/
def http_client_post (cb : Option circuit_breaker_t) (now : Nat)
    (res : curl_result_t) : eth_error_t × Option circuit_breaker_t :=
  match res with
  | curl_result_t.curlTimeout =>
      (eth_error_t.ETH_ERROR_TIMEOUT, cb.map (fun c => circuit_breaker_failure c now))
  | curl_result_t.curlError =>
      (eth_error_t.ETH_ERROR_HTTP, cb.map (fun c => circuit_breaker_failure c now))
  | curl_result_t.ok status =>
      if 200 ≤ status ∧ status < 300 then
        (eth_error_t.ETH_OK, cb.map circuit_breaker_success)
      else
        (eth_error_t.ETH_ERROR_HTTP, cb.map (fun c => circuit_breaker_failure c now))

/-! ## Processor filter (`src/processor/filter.c`) -/

/-- `endpoint_t` (include/ethhook/processor.h:7-16), the fields `filter_matches`
reads.  A `none` address models a `NULL` pointer; a `none` topic slot models a
`NULL` entry in the filter array. -/
structure endpoint_t where
  chain_id : Nat
  address : Option String
  topics : List (Option String)
deriving DecidableEq, Repr

/-- `event_t` (include/ethhook/processor.h:18-31), the fields `filter_matches`
reads.  `contract_address = ""` models `contract_address[0] == '\0'`. -/
structure event_t where
  chain_id : Nat
  contract_address : String
  topics : List String
deriving DecidableEq, Repr

/-- `tolower` on one ASCII character, as `strcasecmp` applies it. -/
def ascii_tolower (c : Char) : Char :=
  if 65 ≤ c.toNat ∧ c.toNat ≤ 90 then Char.ofNat (c.toNat + 32) else c

/-- Lowercasing of a whole string, character by character: `strcasecmp a b == 0`
is `str_tolower a = str_tolower b`. -/
def str_tolower (s : String) : String := String.mk (s.data.map ascii_tolower)

/-- One iteration of the loop in `topics_match` (filter.c:19-32): `NULL`, `""`
and `"null"` filters match anything; otherwise `strcasecmp` — case-insensitive
equality. -/
def slotMatches (filter : Option String) (topic : String) : Bool :=
  match filter with
  | none => true
  | some f =>
      if f = ("") ∨ f = ("null") then true
      else str_tolower f == str_tolower topic

/-- `topics_match` (filter.c:6-35). -/
def topics_match (endpoint_topics : List (Option String)) (event_topics : List String) :
    Bool :=
  if endpoint_topics.length = 0 then true
  else if event_topics.length < endpoint_topics.length then false
  else (endpoint_topics.zip event_topics).all (fun p => slotMatches p.1 p.2)

/-- `filter_matches` (filter.c:37-61). -/
def filter_matches (endpoint : endpoint_t) (event : event_t) : Bool :=
  if endpoint.chain_id ≠ event.chain_id then false
  else
    match endpoint.address with
    | some addr =>
        if event.contract_address ≠ ("") ∧
            str_tolower addr ≠ str_tolower event.contract_address
        then false
        else topics_match endpoint.topics event.topics
    | none => topics_match endpoint.topics event.topics

/-! ## Ingestor reconnect loop (`src/ingestor/worker.c`) -/

/-- The delays slept by `ingestor_worker_thread` (worker.c:10-27) over `n`
consecutive connection failures.  Each loop iteration re-declares the local
`int delay = worker->config->ingestor.reconnect_delay_ms;`, sleeps `delay`, and
then doubles the local (`if (delay < 60000) delay *= 2;`) — a value that dies
at the end of the iteration, exactly as in the C. -/
def ingestor_worker_delays (reconnect_delay_ms : Nat) : Nat → List Nat
  | 0 => []
  | n + 1 =>
      let delay := reconnect_delay_ms
      let slept := delay
      let _delay_after := if delay < 60000 then delay * 2 else delay
      slept :: ingestor_worker_delays reconnect_delay_ms n

/-! ## Helper lemmas -/

/-- `Rat.floor` agrees with the `Int.floor` of the `FloorRing` instance. -/
theorem ratFloor_eq (q : ℚ) : q.floor = ⌊q⌋ := (Rat.floor_def' q).trans (Rat.floor_def).symm

/-- `Nat.digitChar` of a value below 16 is a lowercase hex digit. -/
theorem digitChar_lower_hex : ∀ n, n < 16 → isLowerHexChar (Nat.digitChar n) = true := by
  decide

/-- Zipping against a prefix of the right list of at least the left list's
length changes nothing. -/
theorem zip_take_length {α β : Type} :
    ∀ (l1 : List α) (l2 : List β), l1.zip (l2.take l1.length) = l1.zip l2 := by
  intro l1
  induction l1 with
  | nil => intro l2; rfl
  | cons a t ih =>
      intro l2
      cases l2 with
      | nil => rfl
      | cons b t2 => simp [List.zip_cons_cons, ih]

/-- An open breaker stays open under further failures. -/
theorem failN_open_stays (now : Nat) :
    ∀ (n : Nat) (cb : circuit_breaker_t), cb.state = cb_state_t.cbOpen →
      (failN now n cb).state = cb_state_t.cbOpen := by
  intro n
  induction n with
  | zero => intro cb h; exact h
  | succ m ih =>
      intro cb h
      have hstep : (circuit_breaker_failure cb now).state = cb_state_t.cbOpen := by
        simp [circuit_breaker_failure, h]
      exact ih _ hstep

/-- From `closed` with `k` failures outstanding to reach the threshold, `k`
consecutive failures open the breaker. -/
theorem failN_closed_to_open (now : Nat) :
    ∀ (k : Nat) (cb : circuit_breaker_t), cb.state = cb_state_t.closed →
      cb.failure_count + k = cb.failure_threshold →
      cb.failure_threshold < U64 → 0 < k →
      (failN now k cb).state = cb_state_t.cbOpen := by
  intro k
  induction k with
  | zero => intro cb _ _ _ h4; exact absurd h4 (lt_irrefl 0)
  | succ n ih =>
      intro cb h1 h2 h3 _
      have hmod : (cb.failure_count + 1) % U64 = cb.failure_count + 1 :=
        Nat.mod_eq_of_lt (by omega)
      show (failN now n (circuit_breaker_failure cb now)).state = cb_state_t.cbOpen
      by_cases hth : cb.failure_threshold ≤ (cb.failure_count + 1) % U64
      · have hopen : (circuit_breaker_failure cb now).state = cb_state_t.cbOpen := by
          simp [circuit_breaker_failure, h1, hth]
        exact failN_open_stays now n _ hopen
      · have hthN : ¬ cb.failure_threshold ≤ cb.failure_count + 1 := by
          rw [hmod] at hth; exact hth
        have h1' : (circuit_breaker_failure cb now).state = cb_state_t.closed := by
          simp [circuit_breaker_failure, h1, hth]
        have h2' : (circuit_breaker_failure cb now).failure_count + n =
            (circuit_breaker_failure cb now).failure_threshold := by
          simp [circuit_breaker_failure, h1, hthN, hmod]
          omega
        have h3' : (circuit_breaker_failure cb now).failure_threshold < U64 := by
          simp [circuit_breaker_failure, h1, hth]
          omega
        have hn : 0 < n := by omega
        exact ih _ h1' h2' h3' hn

/-- From `halfOpen` with `k` successes outstanding to reach the probe budget,
`k` consecutive successes close the breaker. -/
theorem succN_halfOpen_to_closed :
    ∀ (k : Nat) (cb : circuit_breaker_t), cb.state = cb_state_t.halfOpen →
      cb.success_count + k = cb.half_open_max_calls →
      cb.half_open_max_calls < U64 → 0 < k →
      (succN k cb).state = cb_state_t.closed := by
  intro k
  induction k with
  | zero => intro cb _ _ _ h4; exact absurd h4 (lt_irrefl 0)
  | succ n ih =>
      intro cb h1 h2 h3 _
      have hmod : (cb.success_count + 1) % U64 = cb.success_count + 1 :=
        Nat.mod_eq_of_lt (by omega)
      show (succN n (circuit_breaker_success cb)).state = cb_state_t.closed
      by_cases hok : cb.half_open_max_calls ≤ (cb.success_count + 1) % U64
      · have hokN : cb.half_open_max_calls ≤ cb.success_count + 1 := by
          rw [hmod] at hok; exact hok
        have hn : n = 0 := by omega
        subst hn
        show (circuit_breaker_success cb).state = cb_state_t.closed
        simp [circuit_breaker_success, h1, hok]
      · have hokN : ¬ cb.half_open_max_calls ≤ cb.success_count + 1 := by
          rw [hmod] at hok; exact hok
        have h1' : (circuit_breaker_success cb).state = cb_state_t.halfOpen := by
          simp [circuit_breaker_success, h1, hok]
        have h2' : (circuit_breaker_success cb).success_count + n =
            (circuit_breaker_success cb).half_open_max_calls := by
          simp [circuit_breaker_success, h1, hokN, hmod]
          omega
        have h3' : (circuit_breaker_success cb).half_open_max_calls < U64 := by
          simp [circuit_breaker_success, h1, hok]
          omega
        have hn : 0 < n := by omega
        exact ih _ h1' h2' h3' hn

/-! ## Claim theorems -/

/-- C1 counterexample: a batch holding one row, whose insert query fails with a
network error, comes out of `clickhouse_batch_flush` with `count = 0` — the row
is dropped, not preserved for the next flush as the claim states. -/
theorem claim_C1_cex :
    (clickhouse_batch_flush (⟨⟨0, 0⟩, [7], 1, 1000⟩ : clickhouse_batch_t Nat)
        eth_error_t.ETH_ERROR_NETWORK).1 = eth_error_t.ETH_ERROR_NETWORK ∧
    ((clickhouse_batch_flush (⟨⟨0, 0⟩, [7], 1, 1000⟩ : clickhouse_batch_t Nat)
        eth_error_t.ETH_ERROR_NETWORK).2).count = 0 ∧
    (⟨⟨0, 0⟩, [7], 1, 1000⟩ : clickhouse_batch_t Nat).count = 1 := by
  decide

/-- C1 (amended): on a non-empty batch, `clickhouse_batch_flush` returns the
query's error to the caller, but resets the row count to `0` whether the insert
succeeded or failed; the items array itself is left untouched (stale). -/
theorem claim_C1 {Row : Type} (batch : clickhouse_batch_t Row)
    (query_err : eth_error_t) (hne : batch.count ≠ 0) :
    (clickhouse_batch_flush batch query_err).1 = query_err ∧
    ((clickhouse_batch_flush batch query_err).2).count = 0 ∧
    ((clickhouse_batch_flush batch query_err).2).items = batch.items := by
  simp [clickhouse_batch_flush, hne]

/-- C1 witness: the amended statement at the concrete one-row batch. -/
theorem claim_C1_witness :
    (clickhouse_batch_flush (⟨⟨0, 0⟩, [7], 1, 1000⟩ : clickhouse_batch_t Nat)
        eth_error_t.ETH_ERROR_NETWORK).1 = eth_error_t.ETH_ERROR_NETWORK ∧
    ((clickhouse_batch_flush (⟨⟨0, 0⟩, [7], 1, 1000⟩ : clickhouse_batch_t Nat)
        eth_error_t.ETH_ERROR_NETWORK).2).count = 0 ∧
    ((clickhouse_batch_flush (⟨⟨0, 0⟩, [7], 1, 1000⟩ : clickhouse_batch_t Nat)
        eth_error_t.ETH_ERROR_NETWORK).2).items =
      (⟨⟨0, 0⟩, [7], 1, 1000⟩ : clickhouse_batch_t Nat).items :=
  claim_C1 (⟨⟨0, 0⟩, [7], 1, 1000⟩ : clickhouse_batch_t Nat)
    eth_error_t.ETH_ERROR_NETWORK (by decide)

/-- C5 counterexample: on a 404 response the breaker is not left untouched:
`http_client_post` runs `circuit_breaker_failure`, which bumps the failure
count of a fresh closed breaker from 0 to 1 and stamps the failure time. -/
theorem claim_C5_cex :
    (http_client_post (some (circuit_breaker_init 5 30000)) 1000
        (curl_result_t.ok 404)).2 =
      some (circuit_breaker_failure (circuit_breaker_init 5 30000) 1000) ∧
    (circuit_breaker_failure (circuit_breaker_init 5 30000) 1000).failure_count = 1 ∧
    (circuit_breaker_init 5 30000).failure_count = 0 ∧
    circuit_breaker_failure (circuit_breaker_init 5 30000) 1000 ≠
      circuit_breaker_init 5 30000 := by
  decide

/-- C5 (amended): a 4xx status other than 408/429 is treated like every other
non-2xx status: `http_client_post` returns `ETH_ERROR_HTTP` and invokes
`circuit_breaker_failure` on the endpoint's breaker — there is no
permanent-failure classification that leaves the breaker untouched. -/
theorem claim_C5 (cb : circuit_breaker_t) (now status : Nat)
    (h4 : 400 ≤ status) (h5 : status < 500) ( _h408 : status ≠ 408)
    ( _h429 : status ≠ 429) :
    http_client_post (some cb) now (curl_result_t.ok status) =
      (eth_error_t.ETH_ERROR_HTTP, some (circuit_breaker_failure cb now)) := by
  have hne : ¬ (200 ≤ status ∧ status < 300) := by omega
  simp [http_client_post, hne]

/-- C5 witness: the amended statement at status 404 on a fresh breaker. -/
theorem claim_C5_witness :
    http_client_post (some (circuit_breaker_init 5 30000)) 1000
        (curl_result_t.ok 404) =
      (eth_error_t.ETH_ERROR_HTTP,
        some (circuit_breaker_failure (circuit_breaker_init 5 30000) 1000)) :=
  claim_C5 (circuit_breaker_init 5 30000) 1000 404 (by decide) (by decide)
    (by decide) (by decide)

/-- C6 counterexample: the signature header the code emits is
`X-EthHook-Signature`, not `X-Webhook-Signature` as the claim states. -/
theorem claim_C6_cex :
    http_post_headers (some ("ab")) =
      [("Content-Type: application/json"), ("X-EthHook-Signature: sha256=ab")] ∧
    ("X-Webhook-Signature: sha256=ab") ∉ http_post_headers (some ("ab")) := by
  decide

/-- C6 (amended): a webhook POST carrying a signature sends the header
`X-EthHook-Signature` whose value is `sha256=` followed by the hex encoding of
the HMAC-SHA256 digest, the hex encoding being lowercase, together with
`Content-Type: application/json`. -/
theorem claim_C6 (hash : List Nat) (hbytes : ∀ b ∈ hash, b < 256) :
    ("X-EthHook-Signature: sha256=" ++ generate_signature hash) ∈
      http_post_headers (some (generate_signature hash)) ∧
    ("Content-Type: application/json") ∈
      http_post_headers (some (generate_signature hash)) ∧
    ∀ c ∈ (generate_signature hash).data, isLowerHexChar c = true := by
  refine ⟨by simp [http_post_headers], by simp [http_post_headers], ?_⟩
  intro c hc
  have hc' : c ∈ List.flatten (hash.map byteToHexChars) := hc
  rw [List.mem_flatten] at hc'
  obtain ⟨l, hl, hcl⟩ := hc'
  rw [List.mem_map] at hl
  obtain ⟨b, hb, rfl⟩ := hl
  have hb256 := hbytes b hb
  simp only [byteToHexChars, List.mem_cons, List.not_mem_nil, or_false] at hcl
  rcases hcl with h | h
  · exact h ▸ digitChar_lower_hex (b / 16) (by omega)
  · exact h ▸ digitChar_lower_hex (b % 16) (by omega)

/-- C6 witness: the amended statement at the two-byte digest `[0, 171]`,
whose hex encoding is `00ab`. -/
theorem claim_C6_witness :
    ("X-EthHook-Signature: sha256=" ++ generate_signature [0, 171]) ∈
      http_post_headers (some (generate_signature [0, 171])) ∧
    ("Content-Type: application/json") ∈
      http_post_headers (some (generate_signature [0, 171])) ∧
    ∀ c ∈ (generate_signature [0, 171]).data, isLowerHexChar c = true :=
  claim_C6 [0, 171] (by decide)

/-- C7: with `reconnect_delay_ms = 1000`, three consecutive connection failures
make `ingestor_worker_thread` sleep 1000 ms before every reconnect — the delay
never doubles, because the doubled value is stored in a loop-local variable
that is re-initialized on the next iteration.  The claimed schedule would be
`[1000, 2000, 4000]`. -/
theorem claim_C7 :
    ingestor_worker_delays 1000 3 = [1000, 1000, 1000] ∧
    ingestor_worker_delays 1000 3 ≠ [1000, 2000, 4000] := by
  decide

/-- C8: a fresh 4096-byte arena given a `SIZE_MAX` request: the request (even
before rounding up) exceeds the 4096 bytes remaining, yet `arena_alloc` returns
a pointer instead of `NULL`, because `ALIGN_UP(SIZE_MAX, 8)` wraps to 0 in
`size_t` arithmetic and passes the space check. -/
theorem claim_C8 :
    (arena_alloc ⟨65536, 65536, 69632, 4096, 0, 0⟩ (U64 - 1)).isSome = true ∧
    (⟨65536, 65536, 69632, 4096, 0, 0⟩ : arena_t).endp -
      (⟨65536, 65536, 69632, 4096, 0, 0⟩ : arena_t).cursor < U64 - 1 := by
  decide

/-- C9: a zero-byte request is rejected by both `arena_alloc` and
`arena_alloc_aligned` — they return `NULL` regardless of remaining capacity. -/
theorem claim_C9 (arena : arena_t) (alignment : Nat) :
    arena_alloc arena 0 = none ∧ arena_alloc_aligned arena 0 alignment = none := by
  constructor
  · simp [arena_alloc]
  · simp [arena_alloc_aligned]

/-- C2: the circuit-breaker state machine: (1) from `closed` with no
accumulated failures, `failure_threshold` consecutive `circuit_breaker_failure`
calls reach `open`; (2) in `open`, once `timeout_ms` has elapsed since the last
failure, the next `circuit_breaker_allow` returns `true` and moves to
`half_open`; (3) in `half_open` with no accumulated successes,
`half_open_max_calls` consecutive `circuit_breaker_success` calls reach
`closed`; (4) any single failure in `half_open` moves back to `open`. -/
theorem claim_C2 :
    (∀ (cb : circuit_breaker_t) (now : Nat),
        cb.state = cb_state_t.closed → cb.failure_count = 0 →
        0 < cb.failure_threshold → cb.failure_threshold < U64 →
        (failN now cb.failure_threshold cb).state = cb_state_t.cbOpen)
  ∧ (∀ (cb : circuit_breaker_t) (now : Nat),
        cb.state = cb_state_t.cbOpen → cb.last_failure_time ≤ now → now < U64 →
        cb.timeout_ms ≤ now - cb.last_failure_time →
        (circuit_breaker_allow cb now).1 = true ∧
        ((circuit_breaker_allow cb now).2).state = cb_state_t.halfOpen)
  ∧ (∀ (cb : circuit_breaker_t),
        cb.state = cb_state_t.halfOpen → cb.success_count = 0 →
        0 < cb.half_open_max_calls → cb.half_open_max_calls < U64 →
        (succN cb.half_open_max_calls cb).state = cb_state_t.closed)
  ∧ (∀ (cb : circuit_breaker_t) (now : Nat),
        cb.state = cb_state_t.halfOpen →
        (circuit_breaker_failure cb now).state = cb_state_t.cbOpen) := by
  refine ⟨?_, ?_, ?_, ?_⟩
  · intro cb now h1 h2 h3 h4
    exact failN_closed_to_open now cb.failure_threshold cb h1 (by omega) h4 h3
  · intro cb now h1 h2 h3 h4
    have hsub : u64sub (now % U64) cb.last_failure_time =
        now - cb.last_failure_time := by
      have hnow : now % U64 = now := Nat.mod_eq_of_lt h3
      rw [hnow]
      unfold u64sub
      have heq : now + U64 - cb.last_failure_time =
          (now - cb.last_failure_time) + U64 := by omega
      rw [heq, Nat.add_mod_right]
      exact Nat.mod_eq_of_lt (by omega)
    constructor
    · simp [circuit_breaker_allow, h1, hsub, h4]
    · simp [circuit_breaker_allow, h1, hsub, h4]
  · intro cb h1 h2 h3 h4
    exact succN_halfOpen_to_closed cb.half_open_max_calls cb h1 (by omega) h4 h3
  · intro cb now h1
    simp [circuit_breaker_failure, h1]

/-- C2 witness: a threshold-3 breaker opens after 3 failures; an open breaker
past its 30 s timeout lets the next `allow` through into `half_open`; a
half-open breaker closes after 3 successes; a half-open breaker reopens on one
failure. -/
theorem claim_C2_witness :
    (failN 5 3 ⟨cb_state_t.closed, 0, 0, 0, 3, 30000, 3⟩).state = cb_state_t.cbOpen ∧
    ((circuit_breaker_allow ⟨cb_state_t.cbOpen, 2, 0, 1000, 5, 30000, 3⟩ 40000).1 = true ∧
      ((circuit_breaker_allow ⟨cb_state_t.cbOpen, 2, 0, 1000, 5, 30000, 3⟩ 40000).2).state =
        cb_state_t.halfOpen) ∧
    (succN 3 ⟨cb_state_t.halfOpen, 0, 0, 0, 5, 30000, 3⟩).state = cb_state_t.closed ∧
    (circuit_breaker_failure ⟨cb_state_t.halfOpen, 1, 2, 0, 5, 30000, 3⟩ 7).state =
      cb_state_t.cbOpen :=
  ⟨claim_C2.1 ⟨cb_state_t.closed, 0, 0, 0, 3, 30000, 3⟩ 5 rfl rfl (by decide) (by decide),
   claim_C2.2.1 ⟨cb_state_t.cbOpen, 2, 0, 1000, 5, 30000, 3⟩ 40000 rfl (by decide)
     (by decide) (by decide),
   claim_C2.2.2.1 ⟨cb_state_t.halfOpen, 0, 0, 0, 5, 30000, 3⟩ rfl rfl (by decide)
     (by decide),
   claim_C2.2.2.2 ⟨cb_state_t.halfOpen, 1, 2, 0, 5, 30000, 3⟩ 7 rfl⟩

/-- C10: `filter_matches` skips the address comparison when the event's
contract address is empty, so such an event passes the address check against
any address filter on the same chain; when the comparison is performed it is
case-insensitive: a case-differing equal address still reduces to the topics
check, and a genuinely different address fails the match. -/
theorem claim_C10 :
    (∀ (e : endpoint_t) (ev : event_t),
        ev.contract_address = ("") → e.chain_id = ev.chain_id →
        filter_matches e ev = topics_match e.topics ev.topics)
  ∧ (∀ (e : endpoint_t) (ev : event_t) (addr : String),
        e.address = some addr → e.chain_id = ev.chain_id →
        str_tolower addr = str_tolower ev.contract_address →
        filter_matches e ev = topics_match e.topics ev.topics)
  ∧ (∀ (e : endpoint_t) (ev : event_t) (addr : String),
        e.address = some addr → e.chain_id = ev.chain_id →
        ev.contract_address ≠ ("") →
        str_tolower addr ≠ str_tolower ev.contract_address →
        filter_matches e ev = false) := by
  refine ⟨?_, ?_, ?_⟩
  · intro e ev hemp hch
    cases ha : e.address with
    | none => simp [filter_matches, hch, ha]
    | some addr => simp [filter_matches, hch, ha, hemp]
  · intro e ev addr ha hch heq
    simp [filter_matches, hch, ha, heq]
  · intro e ev addr ha hch hne hcase
    simp [filter_matches, hch, ha, hne, hcase]

/-- C10 witness: an empty-address event passes the `0xAB` filter; a
case-differing `0xab` event passes it; a `0xcd` event fails it. -/
theorem claim_C10_witness :
    filter_matches ⟨1, some ("0xAB"), []⟩ ⟨1, (""), []⟩ = topics_match [] [] ∧
    filter_matches ⟨1, some ("0xAB"), []⟩ ⟨1, ("0xab"), []⟩ = topics_match [] [] ∧
    filter_matches ⟨1, some ("0xAB"), []⟩ ⟨1, ("0xcd"), []⟩ = false :=
  ⟨claim_C10.1 ⟨1, some ("0xAB"), []⟩ ⟨1, (""), []⟩ rfl rfl,
   claim_C10.2.1 ⟨1, some ("0xAB"), []⟩ ⟨1, ("0xab"), []⟩ ("0xAB") rfl rfl (by decide),
   claim_C10.2.2 ⟨1, some ("0xAB"), []⟩ ⟨1, ("0xcd"), []⟩ ("0xAB") rfl rfl (by decide)
     (by decide)⟩

/-- The final clamp of `retry_calculate_delay` floors the result at `n`. -/
theorem floor_clamp_ge (n : Nat) (q : ℚ) :
    n ≤ (Rat.floor (if q < (n : ℚ) then (n : ℚ) else q)).toNat := by
  by_cases h : q < (n : ℚ)
  · rw [if_pos h, ratFloor_eq, Int.floor_natCast]
    simp
  · rw [if_neg h]
    have h1 : ((n : ℤ) : ℚ) ≤ q := by push_cast; exact not_lt.mp h
    have h2 : (n : ℤ) ≤ Rat.floor q := by rw [ratFloor_eq]; exact Int.le_floor.mpr h1
    have h3 := Int.toNat_le_toNat h2
    simpa using h3

/-- Zero-jitter normal form of `retry_calculate_delay` for `attempt ≥ 1`:
clamp `base * multiplier^(attempt-1)` above by `max`, then below by `base`. -/
theorem retry_zero_jitter_eq (p : retry_policy_t) (a : Nat) (ha : a ≠ 0) :
    retry_calculate_delay p a 0 =
      (Rat.floor (Max.max (p.base_delay_ms : ℚ)
        (Min.min (p.max_delay_ms : ℚ)
          ((p.base_delay_ms : ℚ) * p.backoff_multiplier ^ (a - 1))))).toNat := by
  simp only [retry_calculate_delay, if_neg ha, add_zero, mul_one]
  by_cases h1 : (p.max_delay_ms : ℚ) <
      (p.base_delay_ms : ℚ) * p.backoff_multiplier ^ (a - 1)
  · rw [if_pos h1, min_eq_left (le_of_lt h1)]
    by_cases h2 : (p.max_delay_ms : ℚ) < (p.base_delay_ms : ℚ)
    · rw [if_pos h2, max_eq_left (le_of_lt h2)]
    · rw [if_neg h2, max_eq_right (not_lt.mp h2)]
  · rw [if_neg h1, min_eq_right (not_lt.mp h1)]
    by_cases h2 : (p.base_delay_ms : ℚ) * p.backoff_multiplier ^ (a - 1) <
        (p.base_delay_ms : ℚ)
    · rw [if_pos h2, max_eq_left (le_of_lt h2)]
    · rw [if_neg h2, max_eq_right (not_lt.mp h2)]

/-- C3 counterexample, three violations of the claim as stated: at attempt 0
the returned delay 0 is below the positive base delay; for the positive-delay
policy `base = 100 > max = 50` the returned delay 100 exceeds the maximum; for
multiplier `-2` the delay decreases from attempt 3 (4000 ms) to attempt 4
(1000 ms), so it is not monotone. -/
theorem claim_C3_cex :
    ¬ ((1000 : Nat) ≤ retry_calculate_delay ⟨5, 1000, 60000, 2⟩ 0 0) ∧
    ¬ (retry_calculate_delay ⟨5, 100, 50, 2⟩ 1 0 ≤ (50 : Nat)) ∧
    ¬ (retry_calculate_delay ⟨5, 1000, 60000, -2⟩ 3 0 ≤
        retry_calculate_delay ⟨5, 1000, 60000, -2⟩ 4 0) := by
  refine ⟨?_, ?_, ?_⟩
  · norm_num [retry_calculate_delay]
  · norm_num [retry_calculate_delay, ratFloor_eq, Int.toNat_ofNat]
  · norm_num [retry_calculate_delay, ratFloor_eq, Int.toNat_ofNat]

/-- C3 (amended): for `attempt ≥ 1` and a policy with `0 < base ≤ max` and
multiplier `≥ 1`, the delay is at least `base` under every jitter value, at
most `max` at zero jitter, and monotonically non-decreasing in the attempt
number at zero jitter (plateauing at `max`); attempt 0 returns 0. -/
theorem claim_C3 (p : retry_policy_t) (a b : Nat) (j : ℚ)
    (hbase : 0 < p.base_delay_ms) (hbm : p.base_delay_ms ≤ p.max_delay_ms)
    (hm : 1 ≤ p.backoff_multiplier) (ha : 1 ≤ a) (hab : a ≤ b) :
    p.base_delay_ms ≤ retry_calculate_delay p a j ∧
    retry_calculate_delay p a 0 ≤ p.max_delay_ms ∧
    retry_calculate_delay p a 0 ≤ retry_calculate_delay p b 0 := by
  have ha0 : a ≠ 0 := by omega
  have hb0 : b ≠ 0 := by omega
  refine ⟨?_, ?_, ?_⟩
  · simp only [retry_calculate_delay, if_neg ha0]
    exact floor_clamp_ge p.base_delay_ms _
  · rw [retry_zero_jitter_eq p a ha0]
    have hBM : (p.base_delay_ms : ℚ) ≤ (p.max_delay_ms : ℚ) := by exact_mod_cast hbm
    have hle : Max.max (p.base_delay_ms : ℚ)
        (Min.min (p.max_delay_ms : ℚ)
          ((p.base_delay_ms : ℚ) * p.backoff_multiplier ^ (a - 1))) ≤
        (p.max_delay_ms : ℚ) := max_le hBM (min_le_left _ _)
    have h2 : Rat.floor (Max.max (p.base_delay_ms : ℚ)
        (Min.min (p.max_delay_ms : ℚ)
          ((p.base_delay_ms : ℚ) * p.backoff_multiplier ^ (a - 1)))) ≤
        Rat.floor ((p.max_delay_ms : ℚ)) := by
      rw [ratFloor_eq, ratFloor_eq]
      exact Int.floor_le_floor hle
    have h3 : Rat.floor ((p.max_delay_ms : ℚ)) = (p.max_delay_ms : ℤ) := by
      rw [ratFloor_eq]
      exact Int.floor_natCast _
    have h4 := Int.toNat_le_toNat (h3 ▸ h2)
    simpa using h4
  · rw [retry_zero_jitter_eq p a ha0, retry_zero_jitter_eq p b hb0]
    have hpow : p.backoff_multiplier ^ (a - 1) ≤ p.backoff_multiplier ^ (b - 1) :=
      pow_le_pow_right₀ hm (by omega)
    have hx : (p.base_delay_ms : ℚ) * p.backoff_multiplier ^ (a - 1) ≤
        (p.base_delay_ms : ℚ) * p.backoff_multiplier ^ (b - 1) :=
      mul_le_mul_of_nonneg_left hpow (by positivity)
    have hmax : Max.max (p.base_delay_ms : ℚ)
        (Min.min (p.max_delay_ms : ℚ)
          ((p.base_delay_ms : ℚ) * p.backoff_multiplier ^ (a - 1))) ≤
        Max.max (p.base_delay_ms : ℚ)
        (Min.min (p.max_delay_ms : ℚ)
          ((p.base_delay_ms : ℚ) * p.backoff_multiplier ^ (b - 1))) :=
      max_le_max le_rfl (min_le_min le_rfl hx)
    have hfl : Rat.floor (Max.max (p.base_delay_ms : ℚ)
        (Min.min (p.max_delay_ms : ℚ)
          ((p.base_delay_ms : ℚ) * p.backoff_multiplier ^ (a - 1)))) ≤
        Rat.floor (Max.max (p.base_delay_ms : ℚ)
        (Min.min (p.max_delay_ms : ℚ)
          ((p.base_delay_ms : ℚ) * p.backoff_multiplier ^ (b - 1)))) := by
      rw [ratFloor_eq, ratFloor_eq]
      exact Int.floor_le_floor hmax
    exact Int.toNat_le_toNat hfl

/-- C3 witness: the default policy (base 1 s, max 60 s, multiplier 2) at
attempts 2 ≤ 3, zero jitter. -/
theorem claim_C3_witness :
    (1000 : Nat) ≤ retry_calculate_delay ⟨5, 1000, 60000, 2⟩ 2 0 ∧
    retry_calculate_delay ⟨5, 1000, 60000, 2⟩ 2 0 ≤ (60000 : Nat) ∧
    retry_calculate_delay ⟨5, 1000, 60000, 2⟩ 2 0 ≤
      retry_calculate_delay ⟨5, 1000, 60000, 2⟩ 3 0 :=
  claim_C3 ⟨5, 1000, 60000, 2⟩ 2 3 0 (by decide) (by decide) (by norm_num)
    (by decide) (by decide)

/-- C4 counterexample: the slot comparison is not exact string equality — the
non-wildcard filter `0xAB` matches the topic `0xab` although the two strings
differ, because the code compares with `strcasecmp`. -/
theorem claim_C4_cex :
    topics_match [some ("0xAB")] [("0xab")] = true ∧
    ("0xAB" : String) ≠ ("0xab") := by
  decide

/-- C4 (amended): topic matching is positional: extra event topics beyond the
filter's length are ignored; a filter with more slots than the event has topics
fails; `NULL`, `""` and `"null"` slots are wildcards matching any topic; every
other slot requires case-insensitive string equality; the empty filter list
matches every event; a zero-topic event never matches a non-empty filter list;
and a within-length match is exactly the conjunction of the per-slot checks. -/
theorem claim_C4 :
    (∀ (et : List (Option String)) (evt : List String),
        et.length ≤ evt.length →
        topics_match et evt = topics_match et (evt.take et.length))
  ∧ (∀ (et : List (Option String)) (evt : List String),
        evt.length < et.length → topics_match et evt = false)
  ∧ (∀ (t : String), slotMatches none t = true ∧
        slotMatches (some ("")) t = true ∧ slotMatches (some ("null")) t = true)
  ∧ (∀ (s t : String), s ≠ ("") → s ≠ ("null") →
        (slotMatches (some s) t = true ↔ str_tolower s = str_tolower t))
  ∧ (∀ (evt : List String), topics_match [] evt = true)
  ∧ (∀ (et : List (Option String)), et ≠ [] → topics_match et [] = false)
  ∧ (∀ (et : List (Option String)) (evt : List String),
        0 < et.length → et.length ≤ evt.length →
        (topics_match et evt = true ↔
          ∀ p ∈ et.zip evt, slotMatches p.1 p.2 = true)) := by
  refine ⟨?_, ?_, ?_, ?_, ?_, ?_, ?_⟩
  · intro et evt h
    by_cases he : et.length = 0
    · simp [topics_match, he]
    · have h1 : ¬ evt.length < et.length := by omega
      have h2 : ¬ (evt.take et.length).length < et.length := by
        rw [List.length_take]
        omega
      simp only [topics_match, if_neg he, if_neg h1, if_neg h2, zip_take_length]
  · intro et evt h
    have he : ¬ et.length = 0 := by omega
    simp [topics_match, he, h]
  · intro t
    refine ⟨rfl, ?_, ?_⟩ <;> simp [slotMatches]
  · intro s t hs hn
    have hcond : ¬ (s = ("") ∨ s = ("null")) := by simp [hs, hn]
    simp [slotMatches, hcond]
  · intro evt
    simp [topics_match]
  · intro et h
    have hp : 0 < et.length := List.length_pos.mpr h
    have h0 : ¬ et.length = 0 := by omega
    simp [topics_match, h0, hp]
  · intro et evt h0 h1
    have he : ¬ et.length = 0 := by omega
    have h2 : ¬ evt.length < et.length := by omega
    simp [topics_match, he, h2, List.all_eq_true]

/-- C4 witness: each part of the amended claim at a concrete filter/event. -/
theorem claim_C4_witness :
    topics_match [some ("0xaa")] [("0xaa"), ("0xbb")] =
      topics_match [some ("0xaa")] ([("0xaa"), ("0xbb")].take 1) ∧
    topics_match [some ("0xaa"), none] [("0xaa")] = false ∧
    (slotMatches none ("0xzz") = true ∧ slotMatches (some ("")) ("0xzz") = true ∧
      slotMatches (some ("null")) ("0xzz") = true) ∧
    (slotMatches (some ("0xAB")) ("0xab") = true ↔
      str_tolower ("0xAB") = str_tolower ("0xab")) ∧
    topics_match [] [("0xcc")] = true ∧
    topics_match [none] [] = false ∧
    (topics_match [some ("0xaa")] [("0xaa")] = true ↔
      ∀ p ∈ ([some ("0xaa")] : List (Option String)).zip [("0xaa")],
        slotMatches p.1 p.2 = true) :=
  ⟨claim_C4.1 [some ("0xaa")] [("0xaa"), ("0xbb")] (by decide),
   claim_C4.2.1 [some ("0xaa"), none] [("0xaa")] (by decide),
   claim_C4.2.2.1 ("0xzz"),
   claim_C4.2.2.2.1 ("0xAB") ("0xab") (by decide) (by decide),
   claim_C4.2.2.2.2.1 [("0xcc")],
   claim_C4.2.2.2.2.2.1 [none] (by decide),
   claim_C4.2.2.2.2.2.2 [some ("0xaa")] [("0xaa")] (by decide) (by decide)⟩
